import Mathlib

/-!
# Verification of the HezarDastan Telethon session manager

Shallow embedding of `telethon_client/manager.py` (class `TelethonManager`)
and the parts of `database/db.py` it calls. Python dicts keyed by user id are
modelled as association lists with replace-on-insert semantics; calls to the
remote network (Telethon library calls) are modelled by oracles supplying the
outcome of each call, and each operation additionally returns the list of
network calls it made and the log lines it emitted, so that claims about
"contacting the network" and "logging the wait duration" are statable.
-/

namespace HezarDastan

/-- Python-dict lookup: `d.get(k)` on an association list. -/
def dictGet {β : Type} (d : List (Nat × β)) (k : Nat) : Option β :=
  (d.find? (fun p => p.1 = k)).map Prod.snd

/-- Python-dict membership: `k in d`. -/
def dictContains {β : Type} (d : List (Nat × β)) (k : Nat) : Bool :=
  (d.find? (fun p => p.1 = k)).isSome

/-- Python-dict assignment `d[k] = v`: replaces the existing binding in place,
or appends a new one (dicts preserve insertion order). -/
def dictInsert {β : Type} (d : List (Nat × β)) (k : Nat) (v : β) : List (Nat × β) :=
  if dictContains d k then d.map (fun p => if p.1 = k then (k, v) else p)
  else d ++ [(k, v)]

/-- Python-dict removal `d.pop(k, None)` / `del d[k]`. -/
def dictRemove {β : Type} (d : List (Nat × β)) (k : Nat) : List (Nat × β) :=
  d.filter (fun p => ¬ p.1 = k)

/-- Python truthiness of an optional string: `None` and `""` are falsy. -/
def pyFalsy : Option String → Bool
  | none => true
  | some s => s = ""

/-- ASCII lowering of one character, the fragment of Python `str.lower()`
relevant to the manager's vocabulary and error messages (non-ASCII
characters, in particular the Persian keywords, are fixed points). -/
def pyLowerChar (c : Char) : Char := c.toLower

/-- Python `str.lower()` restricted to ASCII case mapping. -/
def pyLower (s : String) : String := String.mk (s.data.map pyLowerChar)

/-- Python substring test `sub in s`. -/
def pyIn (sub s : String) : Bool := decide (sub.data <:+: s.data)

/-! ## Keyword detector (`TelethonManager.__init__` lines 36–40,
`handle_message` lines 253–259) -/

/-- `self.meeting_keywords`, the fixed ordered bilingual vocabulary. -/
def meeting_keywords : List String :=
  ["جلسه", "قرار", "meeting", "appointment", "session",
   "میتینگ", "ملاقات", "دیدار", "نشست", "کنفرانس",
   "conference", "call", "تماس", "zoom", "skype"]

/-- The keyword-detection step of `handle_message`: lowercase the text, then
loop over the vocabulary appending every keyword whose lowercase form occurs
as a substring. -/
def detectKeywords (text : String) : List String :=
  let message_text := pyLower text
  meeting_keywords.foldl
    (fun detected keyword =>
      if pyIn (pyLower keyword) message_text then detected ++ [keyword] else detected)
    []

/-- Modelled from the spec: "returns the subset of vocabulary terms present
as substrings" of the lowercased text, in vocabulary order. -/
def specKeywordMatch (text : String) : List String :=
  meeting_keywords.filter (fun keyword => pyIn (pyLower keyword) (pyLower text))

/-! ## Session manager state (`TelethonManager.__init__` lines 22–33) -/

/-- The observable state of one `TelegramClient` object as the manager uses
it: connection flag, the last `is_user_authorized` answer recorded when the
client was built, and whether a `NewMessage` event handler was attached. -/
structure ClientState where
  connected : Bool
  authorized : Bool
  handlerAttached : Bool
deriving DecidableEq, Repr

/-- State of a `TelethonManager` plus its environment: the three per-user
dicts (`clients`, `pending_phones`, `pending_code_hash`), the sequence of
`db.update_telethon_status` calls issued so far, and which user ids have a
session blob file on disk (`os.path.exists` in `start_monitoring`). -/
structure ManagerState where
  session_dir : String
  clients : List (Nat × ClientState)
  pending_phones : List (Nat × String)
  pending_code_hash : List (Nat × String)
  db_updates : List (Nat × Bool × Option String)
  session_files : List Nat
deriving DecidableEq, Repr

/-- `__init__`: all three dicts start empty; the session directory and the
files already on disk are environment parameters. -/
def initState (dir : String) (files : List Nat) : ManagerState :=
  { session_dir := dir, clients := [], pending_phones := [],
    pending_code_hash := [], db_updates := [], session_files := files }

/-- `os.path.join(self.session_dir, f"user_{user_id}.session")`. -/
def sessionFilePath (st : ManagerState) (uid : Nat) : String :=
  st.session_dir ++ "/user_" ++ toString uid ++ ".session"

/-- Network calls the manager can issue, recorded as a trace. -/
inductive NetCall where
  | connect
  | isUserAuthorized
  | sendCodeRequest (phone : String) (forceSms : Bool)
  | signInCode (phone code hash : String)
  | signInPassword (password : String)
  | clientDisconnect
deriving DecidableEq, Repr

/-- The log lines of `send_login_code` that matter to the spec: the
flood-wait warning carries the mandated wait duration (`e.seconds`). -/
inductive LogEntry where
  | forceSmsRetryWarn
  | invalidPhoneLogged (uid : Nat)
  | floodWaitLogged (seconds : Nat) (uid : Nat)
  | otherSendErrorLogged
deriving DecidableEq, Repr

/-! ## `create_client` (lines 51–77) -/

/-- `create_client`: builds a fresh `TelegramClient`, connects, asks
`is_user_authorized` (the oracle's answer), and registers the client in
`self.clients` in BOTH branches (lines 62 and 72); only when authorized does
it also attach the message handler. On any exception it returns `None` and
registers nothing. -/
def create_client (st : ManagerState) (uid : Nat) (oracle : Except Unit Bool) :
    Option ClientState × ManagerState × List NetCall :=
  match oracle with
  | .error _ => (none, st, [.connect])
  | .ok authorized =>
      let c : ClientState :=
        { connected := true, authorized := authorized, handlerAttached := authorized }
      (some c, { st with clients := dictInsert st.clients uid c },
       [.connect, .isUserAuthorized])

/-! ## `send_login_code` (lines 79–130) -/

/-- Ways `client.send_code_request` can fail (the caught exception types). -/
inductive SendErr where
  | phoneNumberInvalid
  | floodWait (seconds : Nat)
  | otherError (msg : String)
deriving DecidableEq, Repr

/-- Oracle for one `send_login_code` call: outcome of client creation, of the
first `send_code_request(phone, force_sms=...)`, and of the retry without
`force_sms` (consulted only if the first raises). `ok h` carries the returned
`phone_code_hash`. -/
structure SendOracle where
  create : Except Unit Bool
  first : Except SendErr String
  second : Except SendErr String
deriving Repr

/-- `client.connect()` applied to a client object in place. -/
def connectClient (c : ClientState) : ClientState := { c with connected := true }

/-- Lines 99–130 of `send_login_code`: store the pending phone, then request
the code — on any exception from the first `send_code_request(phone,
force_sms=...)` retry once without `force_sms` (lines 103–108); store the
returned hash on success, and map `PhoneNumberInvalidError`, `FloodWaitError`
(logging `e.seconds`) and any other exception to a `False` return. -/
def sendAttempt (st2 : ManagerState) (uid : Nat) (phone : String)
    (force_sms : Bool) (o : SendOracle) (calls1 : List NetCall) :
    Bool × ManagerState × List NetCall × List LogEntry :=
  match o.first with
  | .ok hash =>
      (true,
       { st2 with pending_code_hash := dictInsert st2.pending_code_hash uid hash },
       calls1 ++ [NetCall.sendCodeRequest phone force_sms], [])
  | .error _ =>
      match o.second with
      | .ok hash =>
          (true,
           { st2 with pending_code_hash := dictInsert st2.pending_code_hash uid hash },
           calls1 ++ [NetCall.sendCodeRequest phone force_sms,
                      NetCall.sendCodeRequest phone false],
           [LogEntry.forceSmsRetryWarn])
      | .error .phoneNumberInvalid =>
          (false, st2,
           calls1 ++ [NetCall.sendCodeRequest phone force_sms,
                      NetCall.sendCodeRequest phone false],
           [LogEntry.forceSmsRetryWarn, LogEntry.invalidPhoneLogged uid])
      | .error (.floodWait sec) =>
          (false, st2,
           calls1 ++ [NetCall.sendCodeRequest phone force_sms,
                      NetCall.sendCodeRequest phone false],
           [LogEntry.forceSmsRetryWarn, LogEntry.floodWaitLogged sec uid])
      | .error (.otherError _) =>
          (false, st2,
           calls1 ++ [NetCall.sendCodeRequest phone force_sms,
                      NetCall.sendCodeRequest phone false],
           [LogEntry.forceSmsRetryWarn, LogEntry.otherSendErrorLogged])

/-- Lines 96–130 of `send_login_code`, once a client is in hand: reconnect if
needed (lines 96–97), store `pending_phones[user_id]` (line 100), then run
the code request. -/
def sendCore (st : ManagerState) (uid : Nat) (phone : String) (force_sms : Bool)
    (o : SendOracle) (client : ClientState) (calls0 : List NetCall) :
    Bool × ManagerState × List NetCall × List LogEntry :=
  if !client.connected then
    sendAttempt
      { st with
          clients := dictInsert st.clients uid (connectClient client),
          pending_phones := dictInsert st.pending_phones uid phone }
      uid phone force_sms o (calls0 ++ [NetCall.connect])
  else
    sendAttempt
      { st with pending_phones := dictInsert st.pending_phones uid phone }
      uid phone force_sms o calls0

/-- `send_login_code`: use the existing client for the user or create one
(lines 87–93; creation failure returns `False` before any pending state is
written), then run the code-request core. -/
def send_login_code (st : ManagerState) (uid : Nat) (phone : String)
    (force_sms : Bool) (o : SendOracle) :
    Bool × ManagerState × List NetCall × List LogEntry :=
  match dictGet st.clients uid with
  | some client => sendCore st uid phone force_sms o client []
  | none =>
      match create_client st uid o.create with
      | (some client, st1, calls) => sendCore st1 uid phone force_sms o client calls
      | (none, st1, calls) => (false, st1, calls, [])

/-! ## `confirm_login_code` (lines 133–241) -/

/-- Outcome of the `client.sign_in` call (the caught exception classes;
`otherError msg` is any other exception with `str(e) = msg`). -/
inductive SignInResult where
  | ok
  | sessionPasswordNeeded
  | phoneCodeInvalid
  | phoneCodeExpired
  | otherError (msg : String)
deriving DecidableEq, Repr

/-- The dict `confirm_login_code` returns:
`{'ok': …, 'need_password': …, 'error': …}`. -/
structure ConfirmResult where
  ok : Bool
  need_password : Bool
  error : Option String
deriving DecidableEq, Repr

/-- `{'ok': False, 'need_password': False, 'error': e}`. -/
def confirmFail (e : String) : ConfirmResult :=
  { ok := false, need_password := false, error := some e }

/-- Success epilogue (lines 207–222): attach the message handler, record
`db.update_telethon_status(user_id, True, session_file)`, clear both pending
entries, return `{'ok': True}`. -/
def confirmSuccess (st : ManagerState) (uid : Nat) (client : ClientState)
    (calls : List NetCall) : ConfirmResult × ManagerState × List NetCall :=
  ({ ok := true, need_password := false, error := none },
   { st with
       clients := dictInsert st.clients uid ({ client with handlerAttached := true }),
       db_updates := st.db_updates ++ [(uid, true, some (sessionFilePath st uid))],
       pending_phones := dictRemove st.pending_phones uid,
       pending_code_hash := dictRemove st.pending_code_hash uid },
   calls)

/-- The outer `except Exception` of `confirm_login_code` (lines 224–241):
classify `str(e).lower()` by substring — `'expired'` clears the pending hash
and reports `code_expired`, `'invalid'` reports `invalid_code`, anything else
is returned verbatim as the error. -/
def outerClassify (st : ManagerState) (uid : Nat) (msg : String)
    (calls : List NetCall) : ConfirmResult × ManagerState × List NetCall :=
  if pyIn "expired" (pyLower msg) then
    (confirmFail "code_expired",
     { st with pending_code_hash := dictRemove st.pending_code_hash uid }, calls)
  else if pyIn "invalid" (pyLower msg) then (confirmFail "invalid_code", st, calls)
  else (confirmFail msg, st, calls)

/-- The shared exception handlers around `client.sign_in` (lines 171–205):
each outcome of the call, whichever variant ran, is mapped the same way —
success runs the completion epilogue, `SessionPasswordNeededError` asks for
the 2FA password, `PhoneCodeInvalidError` reports `invalid_code`,
`PhoneCodeExpiredError` pops the stored hash and reports `code_expired`, and
any other exception falls to the outer classifier. -/
def signInOutcome (st1 : ManagerState) (uid : Nat) (client1 : ClientState)
    (calls : List NetCall) (o : SignInResult) :
    ConfirmResult × ManagerState × List NetCall :=
  match o with
  | .ok => confirmSuccess st1 uid client1 calls
  | .sessionPasswordNeeded =>
      ({ ok := false, need_password := true, error := none }, st1, calls)
  | .phoneCodeInvalid => (confirmFail "invalid_code", st1, calls)
  | .phoneCodeExpired =>
      (confirmFail "code_expired",
       { st1 with pending_code_hash := dictRemove st1.pending_code_hash uid }, calls)
  | .otherError msg => outerClassify st1 uid msg calls

/-- Lines 170–205: dispatch on whether a code or a password was supplied and
submit it. When the code path runs with no stored hash (possible only for a
falsy code), the `phone_code_hash[:10]` debug interpolation raises
`TypeError` on `None`, which lands in the outer classifier. -/
def signInCore (st1 : ManagerState) (uid : Nat) (phone : String)
    (code password : Option String) (hash? : Option String)
    (client1 : ClientState) (calls1 : List NetCall) (o : SignInResult) :
    ConfirmResult × ManagerState × List NetCall :=
  match code with
  | some cd =>
      match hash? with
      | none => outerClassify st1 uid "'NoneType' object is not subscriptable" calls1
      | some h =>
          signInOutcome st1 uid client1 (calls1 ++ [NetCall.signInCode phone cd h]) o
  | none =>
      match password with
      | some pw => signInOutcome st1 uid client1 (calls1 ++ [NetCall.signInPassword pw]) o
      | none => (confirmFail "missing_code_or_password", st1, calls1)

/-- `confirm_login_code(user_id, code, password)`: precondition checks
(lines 147–164: client present, pending phone truthy, pending hash truthy
whenever a truthy code is supplied), reconnect if needed (lines 167–168),
then sign in. -/
def confirm_login_code (st : ManagerState) (uid : Nat)
    (code password : Option String) (o : SignInResult) :
    ConfirmResult × ManagerState × List NetCall :=
  match dictGet st.clients uid with
  | none => (confirmFail "client_not_found", st, [])
  | some client =>
    match dictGet st.pending_phones uid with
    | none => (confirmFail "no_pending_phone", st, [])
    | some phone =>
      if phone = "" then (confirmFail "no_pending_phone", st, [])
      else if pyFalsy (dictGet st.pending_code_hash uid) && !(pyFalsy code) then
        (confirmFail "no_code_hash", st, [])
      else if !client.connected then
        signInCore
          { st with clients := dictInsert st.clients uid (connectClient client) }
          uid phone code password (dictGet st.pending_code_hash uid)
          (connectClient client) [NetCall.connect] o
      else
        signInCore st uid phone code password (dictGet st.pending_code_hash uid)
          client [] o

/-! ## `disconnect_user` (lines 368–384) -/

/-- `disconnect_user`: if the user has a client, disconnect it (the oracle
says whether that call raises), delete the map entry, and record
`db.update_telethon_status(user_id, False)`; on an exception the entry stays
and `False` is returned. A user with no client falls through to the final
`return False`. The session blob file is never touched. -/
def disconnect_user (st : ManagerState) (uid : Nat) (disconnectOk : Bool) :
    Bool × ManagerState × List NetCall :=
  if dictContains st.clients uid then
    if disconnectOk then
      (true,
       { st with clients := dictRemove st.clients uid,
                 db_updates := st.db_updates ++ [(uid, false, none)] },
       [NetCall.clientDisconnect])
    else (false, st, [NetCall.clientDisconnect])
  else (false, st, [])

/-! ## `start_monitoring` (lines 394–413) -/

/-- Oracle for `start_monitoring`: the `create_client` outcome and the answer
to the second `is_user_authorized()` call on line 404. -/
structure StartOracle where
  create : Except Unit Bool
  authorizedAgain : Bool
deriving Repr

/-- `start_monitoring`: if a session file exists, build a client (which
registers itself in `self.clients` even when the session is not authorized)
and return `True` exactly when the client exists and reports authorized;
in every other case return `False`. -/
def start_monitoring (st : ManagerState) (uid : Nat) (o : StartOracle) :
    Bool × ManagerState × List NetCall :=
  if uid ∈ st.session_files then
    match create_client st uid o.create with
    | (some _, st1, calls) =>
        (o.authorizedAgain, st1, calls ++ [NetCall.isUserAuthorized])
    | (none, st1, calls) => (false, st1, calls)
  else (false, st, [])

/-! ## Operation sequences (for the per-user uniqueness invariant) -/

/-- One manager operation with its oracle, as the spec's
RequestCode/ConfirmCode/Disconnect. -/
inductive Op where
  | requestCode (uid : Nat) (phone : String) (forceSms : Bool) (o : SendOracle)
  | confirmCode (uid : Nat) (code password : Option String) (o : SignInResult)
  | disconnect (uid : Nat) (disconnectOk : Bool)

/-- State left by one operation. -/
def step (st : ManagerState) : Op → ManagerState
  | .requestCode uid phone fs o => (send_login_code st uid phone fs o).2.1
  | .confirmCode uid c p o => (confirm_login_code st uid c p o).2.1
  | .disconnect uid ok => (disconnect_user st uid ok).2.1

/-- State after a sequence of operations. -/
def run (st : ManagerState) (ops : List Op) : ManagerState := ops.foldl step st

/-- A dict has no duplicate keys. -/
def keysNodup {β : Type} (d : List (Nat × β)) : Prop := (d.map Prod.fst).Nodup

/-- The three per-user dicts all have unique keys. -/
def StateInv (st : ManagerState) : Prop :=
  keysNodup st.clients ∧ keysNodup st.pending_phones ∧ keysNodup st.pending_code_hash

/-- Modelled from the spec's error taxonomy: the code's precondition errors
`no_pending_phone` and `no_code_hash` are the concrete forms of the spec's
`no_pending_login` kind (absence of the stored phone or of the stored
verification token). -/
def isNoPendingLoginError : Option String → Bool
  | some e => e = "no_pending_phone" || e = "no_code_hash"
  | none => false

/-! ## Concrete fixtures used by witnesses and counterexamples -/

/-- A freshly created, connected, not-yet-authorized client. -/
def freshClient : ClientState :=
  { connected := true, authorized := false, handlerAttached := false }

/-- An authorized client with its message handler attached. -/
def authClient : ClientState :=
  { connected := true, authorized := true, handlerAttached := true }

/-- A manager with one fresh client registered for user 7. -/
def stWithClient7 : ManagerState :=
  { initState "sessions" [] with clients := [(7, freshClient)] }

/-- A manager with an authorized, listening client for user 7 and the
session blob for user 7 on disk. -/
def stWithAuth7 : ManagerState :=
  { initState "sessions" [7] with clients := [(7, authClient)] }

/-- A manager mid-login for user 7: fresh client, pending phone and pending
verification token stored, as left by a successful send_login_code. -/
def stPending7 : ManagerState :=
  { initState "sessions" [] with
      clients := [(7, freshClient)],
      pending_phones := [(7, "+989121234567")],
      pending_code_hash := [(7, "HASH1")] }

/-- A send oracle whose two code requests both fail with a flood wait of the
given number of seconds. -/
def floodOracle (sec : Nat) : SendOracle :=
  { create := Except.ok false,
    first := Except.error (SendErr.floodWait sec),
    second := Except.error (SendErr.floodWait sec) }

/-- The append-accumulating fold of `handle_message` computes a filter. -/
theorem foldl_append_filter {α : Type} (p : α → Bool) (l acc : List α) :
    l.foldl (fun d k => if p k then d ++ [k] else d) acc = acc ++ l.filter p := by
  induction l generalizing acc with
  | nil => simp
  | cons x xs ih =>
      by_cases hx : p x <;> simp [List.foldl, hx, ih, List.filter]

theorem detectKeywords_eq_filter (text : String) :
    detectKeywords text = specKeywordMatch text := by
  simpa [detectKeywords, specKeywordMatch] using
    foldl_append_filter
      (fun keyword => pyIn (pyLower keyword) (pyLower text)) meeting_keywords []

/-! ## Dictionary lemmas -/

theorem keys_dictInsert_of_contains {β : Type} {d : List (Nat × β)} {k : Nat} (v : β)
    (h : dictContains d k = true) :
    (dictInsert d k v).map Prod.fst = d.map Prod.fst := by
  unfold dictInsert
  rw [if_pos h, List.map_map]
  apply List.map_congr_left
  intro p _
  by_cases hp : p.1 = k <;> simp [Function.comp, hp]

theorem not_mem_keys_of_not_contains {β : Type} {d : List (Nat × β)} {k : Nat}
    (h : dictContains d k = false) : k ∉ d.map Prod.fst := by
  unfold dictContains at h
  intro hk
  rcases List.mem_map.mp hk with ⟨p, hp, hfst⟩
  have hnone : d.find? (fun q => q.1 = k) = none := by
    rcases hfind : d.find? (fun q => q.1 = k) with _ | q
    · exact hfind
    · rw [hfind] at h; simp at h
  have := List.find?_eq_none.mp hnone p hp
  simp [hfst] at this

theorem keysNodup_dictInsert {β : Type} {d : List (Nat × β)} (k : Nat) (v : β)
    (h : keysNodup d) : keysNodup (dictInsert d k v) := by
  unfold keysNodup at *
  cases hc : dictContains d k with
  | true => rw [keys_dictInsert_of_contains v hc]; exact h
  | false =>
      unfold dictInsert
      rw [if_neg (by simp [hc]), List.map_append]
      simp only [List.nodup_append, List.map_cons, List.map_nil]
      exact ⟨h, List.nodup_singleton k,
        fun a ha hmem => by
          simp at hmem
          exact not_mem_keys_of_not_contains hc (hmem ▸ ha)⟩

theorem keysNodup_dictRemove {β : Type} {d : List (Nat × β)} (k : Nat)
    (h : keysNodup d) : keysNodup (dictRemove d k) := by
  unfold keysNodup dictRemove at *
  exact h.sublist ((List.filter_sublist d).map Prod.fst)

theorem find?_map_replace {β : Type} (d : List (Nat × β)) (k : Nat) (v : β)
    (h : (d.find? (fun p => p.1 = k)).isSome = true) :
    (d.map (fun p => if p.1 = k then (k, v) else p)).find? (fun p => p.1 = k)
      = some (k, v) := by
  induction d with
  | nil => simp at h
  | cons p tl ih =>
      by_cases hp : p.1 = k
      · simp [List.find?_cons, hp]
      · rw [List.find?_cons_of_neg tl (by simpa using hp)] at h
        rw [List.map_cons, if_neg hp,
          List.find?_cons_of_neg _ (by simpa using hp)]
        exact ih h

theorem dictGet_dictInsert_self {β : Type} (d : List (Nat × β)) (k : Nat) (v : β) :
    dictGet (dictInsert d k v) k = some v := by
  unfold dictGet dictInsert
  cases hc : dictContains d k with
  | true =>
      rw [if_pos rfl]
      unfold dictContains at hc
      rw [find?_map_replace d k v hc]
      rfl
  | false =>
      rw [if_neg (by simp)]
      unfold dictContains at hc
      have hnone : d.find? (fun p => decide (p.1 = k)) = none :=
        Option.not_isSome_iff_eq_none.mp (by simp [hc])
      rw [List.find?_append, hnone]
      simp [List.find?]

theorem dictGet_dictRemove_self {β : Type} (d : List (Nat × β)) (k : Nat) :
    dictGet (dictRemove d k) k = none := by
  unfold dictGet dictRemove
  induction d with
  | nil => rfl
  | cons p tl ih =>
      by_cases hp : p.1 = k <;>
        simp_all [List.filter_cons, List.find?_cons, hp]

theorem dictContains_eq_isSome_dictGet {β : Type} (d : List (Nat × β)) (k : Nat) :
    dictContains d k = (dictGet d k).isSome := by
  unfold dictContains dictGet
  cases d.find? (fun p => p.1 = k) <;> rfl

/-! ## Preservation of the per-user uniqueness invariant -/

theorem stateInv_create_client (st : ManagerState) (uid : Nat)
    (o : Except Unit Bool) (h : StateInv st) :
    StateInv (create_client st uid o).2.1 := by
  cases o with
  | error e => exact h
  | ok b => exact ⟨keysNodup_dictInsert uid _ h.1, h.2.1, h.2.2⟩

theorem stateInv_sendAttempt (st2 : ManagerState) (uid : Nat) (phone : String)
    (fs : Bool) (o : SendOracle) (calls1 : List NetCall) (h : StateInv st2) :
    StateInv (sendAttempt st2 uid phone fs o calls1).2.1 := by
  obtain ⟨h1, h2, h3⟩ := h
  unfold sendAttempt
  rcases o.first with e1 | hash
  · rcases o.second with e2 | hash2
    · cases e2 <;> exact ⟨h1, h2, h3⟩
    · exact ⟨h1, h2, keysNodup_dictInsert uid _ h3⟩
  · exact ⟨h1, h2, keysNodup_dictInsert uid _ h3⟩

theorem stateInv_sendCore (st : ManagerState) (uid : Nat) (phone : String)
    (fs : Bool) (o : SendOracle) (client : ClientState) (calls0 : List NetCall)
    (h : StateInv st) : StateInv (sendCore st uid phone fs o client calls0).2.1 := by
  obtain ⟨h1, h2, h3⟩ := h
  unfold sendCore
  cases client.connected
  · exact stateInv_sendAttempt _ uid phone fs o _
      ⟨keysNodup_dictInsert uid _ h1, keysNodup_dictInsert uid _ h2, h3⟩
  · exact stateInv_sendAttempt _ uid phone fs o _
      ⟨h1, keysNodup_dictInsert uid _ h2, h3⟩

theorem stateInv_send_login_code (st : ManagerState) (uid : Nat) (phone : String)
    (fs : Bool) (o : SendOracle) (h : StateInv st) :
    StateInv (send_login_code st uid phone fs o).2.1 := by
  unfold send_login_code
  rcases dictGet st.clients uid with _ | client
  · rcases ho : o.create with e | b
    · exact h
    · exact stateInv_sendCore _ uid phone fs o _ _
        ⟨keysNodup_dictInsert uid _ h.1, h.2.1, h.2.2⟩
  · exact stateInv_sendCore st uid phone fs o client [] h

theorem stateInv_confirmSuccess (st : ManagerState) (uid : Nat)
    (client : ClientState) (calls : List NetCall) (h : StateInv st) :
    StateInv (confirmSuccess st uid client calls).2.1 :=
  ⟨keysNodup_dictInsert uid _ h.1, keysNodup_dictRemove uid h.2.1,
    keysNodup_dictRemove uid h.2.2⟩

theorem stateInv_outerClassify (st : ManagerState) (uid : Nat) (msg : String)
    (calls : List NetCall) (h : StateInv st) :
    StateInv (outerClassify st uid msg calls).2.1 := by
  unfold outerClassify
  split
  · exact ⟨h.1, h.2.1, keysNodup_dictRemove uid h.2.2⟩
  · split
    · exact h
    · exact h

theorem stateInv_signInOutcome (st1 : ManagerState) (uid : Nat)
    (client1 : ClientState) (calls : List NetCall) (o : SignInResult)
    (h : StateInv st1) : StateInv (signInOutcome st1 uid client1 calls o).2.1 := by
  cases o with
  | ok => exact stateInv_confirmSuccess st1 uid client1 calls h
  | sessionPasswordNeeded => exact h
  | phoneCodeInvalid => exact h
  | phoneCodeExpired => exact ⟨h.1, h.2.1, keysNodup_dictRemove uid h.2.2⟩
  | otherError msg => exact stateInv_outerClassify st1 uid msg calls h

theorem stateInv_signInCore (st1 : ManagerState) (uid : Nat) (phone : String)
    (code password hash? : Option String) (client1 : ClientState)
    (calls1 : List NetCall) (o : SignInResult) (h : StateInv st1) :
    StateInv (signInCore st1 uid phone code password hash? client1 calls1 o).2.1 := by
  unfold signInCore
  rcases code with _ | cd
  · rcases password with _ | pw
    · exact h
    · exact stateInv_signInOutcome st1 uid client1 _ o h
  · rcases hash? with _ | hsh
    · exact stateInv_outerClassify st1 uid _ calls1 h
    · exact stateInv_signInOutcome st1 uid client1 _ o h

theorem stateInv_confirm_login_code (st : ManagerState) (uid : Nat)
    (code password : Option String) (o : SignInResult) (h : StateInv st) :
    StateInv (confirm_login_code st uid code password o).2.1 := by
  unfold confirm_login_code
  rcases dictGet st.clients uid with _ | client
  · exact h
  rcases dictGet st.pending_phones uid with _ | phone
  · exact h
  by_cases hpe : phone = ""
  · simp only [if_pos hpe]; exact h
  simp only [if_neg hpe]
  by_cases hck : (pyFalsy (dictGet st.pending_code_hash uid) && !(pyFalsy code)) = true
  · simp only [if_pos hck]; exact h
  simp only [if_neg hck]
  cases client.connected
  · exact stateInv_signInCore _ uid phone code password _ _ _ o
      ⟨keysNodup_dictInsert uid _ h.1, h.2.1, h.2.2⟩
  · exact stateInv_signInCore st uid phone code password _ _ _ o h

theorem stateInv_disconnect_user (st : ManagerState) (uid : Nat) (ok : Bool)
    (h : StateInv st) : StateInv (disconnect_user st uid ok).2.1 := by
  unfold disconnect_user
  split
  · split
    · exact ⟨keysNodup_dictRemove uid h.1, h.2.1, h.2.2⟩
    · exact h
  · exact h

theorem stateInv_step (st : ManagerState) (op : Op) (h : StateInv st) :
    StateInv (step st op) := by
  cases op with
  | requestCode uid phone fs o => exact stateInv_send_login_code st uid phone fs o h
  | confirmCode uid c p o => exact stateInv_confirm_login_code st uid c p o h
  | disconnect uid ok => exact stateInv_disconnect_user st uid ok h

theorem stateInv_run (st : ManagerState) (ops : List Op) (h : StateInv st) :
    StateInv (run st ops) := by
  induction ops generalizing st with
  | nil => exact h
  | cons op tl ih => exact ih _ (stateInv_step st op h)

/-! ## Claim theorems -/

/-- C9: for every user id and after every sequence of RequestCode,
ConfirmCode, and Disconnect operations starting from a fresh manager, at
most one pending-phone entry, at most one pending-token entry, and at most
one client entry exist for that user id. -/
theorem C9_at_most_one_pending_login_and_live_connection
    (dir : String) (files : List Nat) (ops : List Op) (uid : Nat) :
    ((run (initState dir files) ops).clients.map Prod.fst).count uid ≤ 1 ∧
    ((run (initState dir files) ops).pending_phones.map Prod.fst).count uid ≤ 1 ∧
    ((run (initState dir files) ops).pending_code_hash.map Prod.fst).count uid ≤ 1 := by
  have h0 : StateInv (initState dir files) := by
    refine ⟨?_, ?_, ?_⟩ <;> simp [initState, keysNodup]
  have h := stateInv_run (initState dir files) ops h0
  exact ⟨List.nodup_iff_count_le_one.mp h.1 uid,
         List.nodup_iff_count_le_one.mp h.2.1 uid,
         List.nodup_iff_count_le_one.mp h.2.2 uid⟩

/-- C8: the keyword detection step is a pure, deterministic,
case-insensitive substring match returning, in vocabulary order, exactly
the vocabulary terms whose lowercased form occurs in the lowercased text;
"let\x27s have a meeting at 14:30" matches "meeting", "hello world" matches
nothing, and "MEETING" matches "meeting". -/
theorem C8_keyword_detection_case_insensitive_substring_match :
    (∀ text, detectKeywords text = specKeywordMatch text) ∧
    "meeting" ∈ detectKeywords "let\x27s have a meeting at 14:30" ∧
    detectKeywords "hello world" = [] ∧
    detectKeywords "MEETING" = ["meeting"] := by
  refine ⟨detectKeywords_eq_filter, ?_, ?_, ?_⟩ <;> decide

/-- C3 counterexample: disconnect_user on a never-connected user id returns
False — the failure return — not success as the claim states (the state is
indeed untouched). -/
theorem C3_counterexample_disconnect_returns_false :
    (disconnect_user (initState "sessions" []) 1 true).1 = false ∧
    (disconnect_user (initState "sessions" []) 1 true).2.1
      = initState "sessions" [] := ⟨rfl, rfl⟩

/-- C3 amended: for every user id with no live connection, disconnect_user
has no side effects but returns False rather than success. -/
theorem C3_amended_disconnect_no_connection_is_noop_returning_false
    (st : ManagerState) (uid : Nat) (ok : Bool)
    (h : dictContains st.clients uid = false) :
    disconnect_user st uid ok = (false, st, []) := by
  unfold disconnect_user
  rw [if_neg (by simp [h])]

/-- C3 witness: the amended theorem applied to a fresh manager and user 2. -/
theorem C3_amended_witness :
    dictContains (initState "sessions" []).clients 2 = false ∧
    disconnect_user (initState "sessions" []) 2 true
      = (false, initState "sessions" [], []) :=
  ⟨by decide,
   C3_amended_disconnect_no_connection_is_noop_returning_false _ 2 true (by decide)⟩

/-- C7 counterexample: disconnect_user succeeds for a connected user yet the
persisted session blob for that user is still on disk afterwards — it is
never deleted. -/
theorem C7_counterexample_session_blob_not_deleted :
    (disconnect_user stWithAuth7 7 true).1 = true ∧
    7 ∈ (disconnect_user stWithAuth7 7 true).2.1.session_files := by
  exact ⟨rfl, by decide⟩

/-- C7 amended: for every user with a live connection, disconnect_user
closes the connection, removes it from the live set, and marks the user
unauthenticated via the store, but does NOT delete the persisted session
blob; pending-login state is also untouched. -/
theorem C7_amended_disconnect_removes_and_marks_but_keeps_blob
    (st : ManagerState) (uid : Nat)
    (h : dictContains st.clients uid = true) :
    (disconnect_user st uid true).1 = true ∧
    dictGet (disconnect_user st uid true).2.1.clients uid = none ∧
    (disconnect_user st uid true).2.1.db_updates
      = st.db_updates ++ [(uid, false, none)] ∧
    (disconnect_user st uid true).2.1.session_files = st.session_files ∧
    (disconnect_user st uid true).2.1.pending_phones = st.pending_phones ∧
    (disconnect_user st uid true).2.1.pending_code_hash = st.pending_code_hash ∧
    (disconnect_user st uid true).2.2 = [NetCall.clientDisconnect] := by
  unfold disconnect_user
  rw [if_pos h, if_pos rfl]
  exact ⟨rfl, dictGet_dictRemove_self st.clients uid, rfl, rfl, rfl, rfl, rfl⟩

/-- C7 witness: the amended theorem applied to the authorized-user fixture. -/
theorem C7_amended_witness :
    dictContains stWithAuth7.clients 7 = true ∧
    ((disconnect_user stWithAuth7 7 true).1 = true ∧
     dictGet (disconnect_user stWithAuth7 7 true).2.1.clients 7 = none ∧
     (disconnect_user stWithAuth7 7 true).2.1.db_updates
       = stWithAuth7.db_updates ++ [(7, false, none)] ∧
     (disconnect_user stWithAuth7 7 true).2.1.session_files
       = stWithAuth7.session_files ∧
     (disconnect_user stWithAuth7 7 true).2.1.pending_phones
       = stWithAuth7.pending_phones ∧
     (disconnect_user stWithAuth7 7 true).2.1.pending_code_hash
       = stWithAuth7.pending_code_hash ∧
     (disconnect_user stWithAuth7 7 true).2.2 = [NetCall.clientDisconnect]) :=
  ⟨by decide, C7_amended_disconnect_removes_and_marks_but_keeps_blob stWithAuth7 7 (by decide)⟩

/-- C4 counterexample: with a session blob on disk whose session the network
reports unauthorized, start_monitoring returns false yet leaves a client
entry registered in the live-connection map for that user. -/
theorem C4_counterexample_resume_leaves_client_registered :
    (start_monitoring (initState "sessions" [5]) 5
        { create := Except.ok false, authorizedAgain := false }).1 = false ∧
    dictGet (start_monitoring (initState "sessions" [5]) 5
        { create := Except.ok false, authorizedAgain := false }).2.1.clients 5
      = some freshClient := ⟨rfl, by decide⟩

/-- C4 amended: start_monitoring returns false when the blob is missing
(state unchanged), when client creation fails (state unchanged), or when
the network reports the session unauthorized — but in that last case an
unauthorized, non-listening client entry remains registered in the
live-connection map. -/
theorem C4_amended_resume_failure_cases
    (st : ManagerState) (uid : Nat) (o : StartOracle) :
    (uid ∉ st.session_files → start_monitoring st uid o = (false, st, [])) ∧
    (uid ∈ st.session_files → o.create = Except.error () →
      start_monitoring st uid o
        = (false, st, [NetCall.connect])) ∧
    (uid ∈ st.session_files → o.create = Except.ok false →
      o.authorizedAgain = false →
      (start_monitoring st uid o).1 = false ∧
      dictGet (start_monitoring st uid o).2.1.clients uid = some freshClient) := by
  refine ⟨?_, ?_, ?_⟩
  · intro h
    unfold start_monitoring
    rw [if_neg h]
  · intro h ho
    unfold start_monitoring create_client
    rw [if_pos h, ho]
  · intro h ho ha
    unfold start_monitoring create_client
    rw [if_pos h, ho]
    exact ⟨ha, dictGet_dictInsert_self st.clients uid freshClient⟩

/-- C4 witness: the unauthorized-blob branch of the amended theorem at a
concrete state. -/
theorem C4_amended_witness :
    5 ∈ (initState "sessions" [5]).session_files ∧
    ((start_monitoring (initState "sessions" [5]) 5
        { create := Except.ok false, authorizedAgain := false }).1 = false ∧
     dictGet (start_monitoring (initState "sessions" [5]) 5
        { create := Except.ok false, authorizedAgain := false }).2.1.clients 5
       = some freshClient) :=
  ⟨by decide,
   (C4_amended_resume_failure_cases (initState "sessions" [5]) 5
      { create := Except.ok false, authorizedAgain := false }).2.2
     (by decide) rfl rfl⟩

/-- C5 counterexample: on a flood-wait failure the caller-visible outcome
(the Bool return and the manager state) is identical for a mandated wait of
42 seconds and of 9999 seconds — the wait duration is not surfaced to the
caller, only logged — and the call trace shows the code request was
automatically retried once (two sendCodeRequest calls). -/
theorem C5_counterexample_floodwait_swallowed_and_retried :
    (send_login_code stWithClient7 7 "+989121234567" true (floodOracle 42)).1
      = false ∧
    (send_login_code stWithClient7 7 "+989121234567" true (floodOracle 42)).1
      = (send_login_code stWithClient7 7 "+989121234567" true (floodOracle 9999)).1 ∧
    (send_login_code stWithClient7 7 "+989121234567" true (floodOracle 42)).2.1
      = (send_login_code stWithClient7 7 "+989121234567" true (floodOracle 9999)).2.1 ∧
    (send_login_code stWithClient7 7 "+989121234567" true (floodOracle 42)).2.2.1
      = [NetCall.sendCodeRequest "+989121234567" true,
         NetCall.sendCodeRequest "+989121234567" false] := by
  refine ⟨rfl, rfl, by decide, rfl⟩

/-- C5 amended: when send_login_code fails because the retried code request
hits a flood wait, it returns bare False; the mandated wait duration appears
only in the log line, and the returned value and state are the same
whatever that duration is; moreover the component has automatically retried
the code request once without force_sms after the first attempt failed. -/
theorem C5_amended_floodwait_logged_never_returned
    (st : ManagerState) (uid : Nat) (phone : String) (fs : Bool)
    (client : ClientState) (c? : Except Unit Bool) (e1 : SendErr) (m m2 : Nat)
    (hc : dictGet st.clients uid = some client) :
    (send_login_code st uid phone fs
        ⟨c?, Except.error e1, Except.error (SendErr.floodWait m)⟩).1 = false ∧
    LogEntry.floodWaitLogged m uid ∈
      (send_login_code st uid phone fs
        ⟨c?, Except.error e1, Except.error (SendErr.floodWait m)⟩).2.2.2 ∧
    NetCall.sendCodeRequest phone false ∈
      (send_login_code st uid phone fs
        ⟨c?, Except.error e1, Except.error (SendErr.floodWait m)⟩).2.2.1 ∧
    (send_login_code st uid phone fs
        ⟨c?, Except.error e1, Except.error (SendErr.floodWait m)⟩).1
      = (send_login_code st uid phone fs
        ⟨c?, Except.error e1, Except.error (SendErr.floodWait m2)⟩).1 ∧
    (send_login_code st uid phone fs
        ⟨c?, Except.error e1, Except.error (SendErr.floodWait m)⟩).2.1
      = (send_login_code st uid phone fs
        ⟨c?, Except.error e1, Except.error (SendErr.floodWait m2)⟩).2.1 := by
  unfold send_login_code
  rw [hc]
  unfold sendCore sendAttempt
  cases hcn : client.connected <;> simp [hcn]

/-- C5 witness: the amended theorem at the flood-oracle fixture. -/
theorem C5_amended_witness :
    dictGet stWithClient7.clients 7 = some freshClient ∧
    ((send_login_code stWithClient7 7 "+989121234567" true (floodOracle 42)).1
        = false ∧
     LogEntry.floodWaitLogged 42 7 ∈
       (send_login_code stWithClient7 7 "+989121234567" true (floodOracle 42)).2.2.2 ∧
     NetCall.sendCodeRequest "+989121234567" false ∈
       (send_login_code stWithClient7 7 "+989121234567" true (floodOracle 42)).2.2.1 ∧
     (send_login_code stWithClient7 7 "+989121234567" true (floodOracle 42)).1
       = (send_login_code stWithClient7 7 "+989121234567" true
           ⟨Except.ok false, Except.error (SendErr.floodWait 42),
            Except.error (SendErr.floodWait 9999)⟩).1 ∧
     (send_login_code stWithClient7 7 "+989121234567" true (floodOracle 42)).2.1
       = (send_login_code stWithClient7 7 "+989121234567" true
           ⟨Except.ok false, Except.error (SendErr.floodWait 42),
            Except.error (SendErr.floodWait 9999)⟩).2.1) :=
  ⟨by decide,
   C5_amended_floodwait_logged_never_returned stWithClient7 7 "+989121234567" true
     freshClient (Except.ok false) (SendErr.floodWait 42) 42 9999 (by decide)⟩

/-- C6 counterexample: a ConfirmCode call for a user with no PendingLogin at
all (fresh manager) fails with error client_not_found — which is not the
no-pending-login kind the claim requires — because the client-map check runs
before the pending-login checks. -/
theorem C6_counterexample_error_is_client_not_found :
    confirm_login_code (initState "sessions" []) 1 (some "12345") none
        SignInResult.ok
      = (confirmFail "client_not_found", initState "sessions" [], []) ∧
    isNoPendingLoginError (some "client_not_found") = false := ⟨rfl, rfl⟩

/-- C6 amended: a ConfirmCode call carrying a nonempty code for a user with
no stored phone or no stored verification token fails without contacting
the network and without changing state; when a client entry exists the
error is one of the no-pending-login kinds (no_pending_phone or
no_code_hash), and when none exists it is client_not_found. -/
theorem C6_amended_no_pending_login_precondition
    (st : ManagerState) (uid : Nat) (code : String) (o : SignInResult)
    (hcode : code ≠ "")
    (hpend : pyFalsy (dictGet st.pending_phones uid) = true ∨
             pyFalsy (dictGet st.pending_code_hash uid) = true) :
    (confirm_login_code st uid (some code) none o).1.ok = false ∧
    (confirm_login_code st uid (some code) none o).2.1 = st ∧
    (confirm_login_code st uid (some code) none o).2.2 = [] ∧
    (dictContains st.clients uid = true →
      isNoPendingLoginError (confirm_login_code st uid (some code) none o).1.error
        = true) ∧
    (dictContains st.clients uid = false →
      (confirm_login_code st uid (some code) none o).1.error
        = some "client_not_found") := by
  unfold confirm_login_code
  rw [dictContains_eq_isSome_dictGet]
  rcases hcl : dictGet st.clients uid with _ | client
  · exact ⟨rfl, rfl, rfl, by simp, fun _ => rfl⟩
  · rcases hph : dictGet st.pending_phones uid with _ | phone
    · exact ⟨rfl, rfl, rfl, fun _ => rfl, by simp⟩
    · simp only []
      by_cases hpe : phone = ""
      · rw [if_pos hpe]
        exact ⟨rfl, rfl, rfl, fun _ => rfl, by simp⟩
      · rw [if_neg hpe]
        have hhash : pyFalsy (dictGet st.pending_code_hash uid) = true := by
          rcases hpend with h | h
          · rw [hph] at h; simp [pyFalsy, hpe] at h
          · exact h
        rw [if_pos (by rw [hhash]; simp [pyFalsy, hcode])]
        exact ⟨rfl, rfl, rfl, fun _ => rfl, by simp⟩

/-- C6 witness: the amended theorem for a user whose token was cleared but
whose phone is still pending. -/
theorem C6_amended_witness :
    ("99999" ≠ "") ∧
    (pyFalsy (dictGet
        { stPending7 with pending_code_hash := [] }.pending_phones 7) = true ∨
     pyFalsy (dictGet
        { stPending7 with pending_code_hash := [] }.pending_code_hash 7) = true) ∧
    ((confirm_login_code { stPending7 with pending_code_hash := [] } 7
        (some "99999") none SignInResult.ok).1.ok = false ∧
     (confirm_login_code { stPending7 with pending_code_hash := [] } 7
        (some "99999") none SignInResult.ok).2.1
       = { stPending7 with pending_code_hash := [] } ∧
     (confirm_login_code { stPending7 with pending_code_hash := [] } 7
        (some "99999") none SignInResult.ok).2.2 = [] ∧
     (dictContains { stPending7 with pending_code_hash := [] }.clients 7 = true →
       isNoPendingLoginError (confirm_login_code
          { stPending7 with pending_code_hash := [] } 7
          (some "99999") none SignInResult.ok).1.error = true) ∧
     (dictContains { stPending7 with pending_code_hash := [] }.clients 7 = false →
       (confirm_login_code { stPending7 with pending_code_hash := [] } 7
          (some "99999") none SignInResult.ok).1.error
         = some "client_not_found")) :=
  ⟨by decide, Or.inr (by decide),
   C6_amended_no_pending_login_precondition _ 7 "99999" SignInResult.ok
     (by decide) (Or.inr (by decide))⟩

/-- Helper: with a registered client but no pending phone, every
confirm_login_code call fails fast with no_pending_phone, leaving the state
untouched and making no network call. -/
theorem confirm_no_pending_phone (st : ManagerState) (uid : Nat) (c : ClientState)
    (code password : Option String) (o : SignInResult)
    (hc : dictGet st.clients uid = some c)
    (hp : dictGet st.pending_phones uid = none) :
    confirm_login_code st uid code password o
      = (confirmFail "no_pending_phone", st, []) := by
  unfold confirm_login_code
  rw [hc, hp]

/-- Helper: with a registered client and a nonempty pending phone but no
stored verification token, a confirm_login_code call carrying a nonempty
code fails fast with no_code_hash, leaving the state untouched and making
no network call. -/
theorem confirm_no_code_hash (st : ManagerState) (uid : Nat) (c : ClientState)
    (phone code : String) (o : SignInResult)
    (hc : dictGet st.clients uid = some c)
    (hp : dictGet st.pending_phones uid = some phone) (hpne : phone ≠ "")
    (hh : dictGet st.pending_code_hash uid = none) (hcode : code ≠ "") :
    confirm_login_code st uid (some code) none o
      = (confirmFail "no_code_hash", st, []) := by
  unfold confirm_login_code
  rw [hc, hp, hh]
  simp only []
  rw [if_neg hpne, if_pos (by simp [pyFalsy, hcode])]

/-- C1: for every user with a registered client, a nonempty pending phone
and a nonempty verification token, when the network accepts the code with
no second factor, confirm_login_code returns ok with the handler attached
to the registered client, records the session status update in the store,
and clears both pending entries; an immediately following
confirm_login_code call for the same user then fails with the
no-pending-login error (concretely no_pending_phone) instead of
succeeding. -/
theorem C1_confirm_success_completes_login_and_second_call_fails
    (st : ManagerState) (uid : Nat) (client : ClientState)
    (phone hash code : String) (code2 pw2 : Option String) (o2 : SignInResult)
    (hc : dictGet st.clients uid = some client)
    (hp : dictGet st.pending_phones uid = some phone) (hpne : phone ≠ "")
    (hh : dictGet st.pending_code_hash uid = some hash) (hhne : hash ≠ "") :
    (confirm_login_code st uid (some code) none SignInResult.ok).1
      = { ok := true, need_password := false, error := none } ∧
    dictGet
        (confirm_login_code st uid (some code) none SignInResult.ok).2.1.clients uid
      = some { connected := true, authorized := client.authorized,
               handlerAttached := true } ∧
    (confirm_login_code st uid (some code) none SignInResult.ok).2.1.db_updates
      = st.db_updates ++ [(uid, true, some (sessionFilePath st uid))] ∧
    dictGet (confirm_login_code st uid
        (some code) none SignInResult.ok).2.1.pending_phones uid = none ∧
    dictGet (confirm_login_code st uid
        (some code) none SignInResult.ok).2.1.pending_code_hash uid = none ∧
    (confirm_login_code
        (confirm_login_code st uid (some code) none SignInResult.ok).2.1
        uid code2 pw2 o2).1.ok = false ∧
    isNoPendingLoginError (confirm_login_code
        (confirm_login_code st uid (some code) none SignInResult.ok).2.1
        uid code2 pw2 o2).1.error = true := by
  obtain ⟨cc, ca, ch⟩ := client
  cases cc with
  | true =>
      have hr : confirm_login_code st uid (some code) none SignInResult.ok
          = ({ ok := true, need_password := false, error := none },
             { st with
                 clients := dictInsert st.clients uid ⟨true, ca, true⟩,
                 db_updates := st.db_updates
                   ++ [(uid, true, some (sessionFilePath st uid))],
                 pending_phones := dictRemove st.pending_phones uid,
                 pending_code_hash := dictRemove st.pending_code_hash uid },
             [NetCall.signInCode phone code hash]) := by
        unfold confirm_login_code
        rw [hc, hp, hh]
        simp only []
        rw [if_neg hpne, if_neg (by simp [pyFalsy, hhne]), if_neg (by simp)]
        rfl
      rw [hr]
      have h2 := confirm_no_pending_phone
        { st with
            clients := dictInsert st.clients uid ⟨true, ca, true⟩,
            db_updates := st.db_updates
              ++ [(uid, true, some (sessionFilePath st uid))],
            pending_phones := dictRemove st.pending_phones uid,
            pending_code_hash := dictRemove st.pending_code_hash uid }
        uid ⟨true, ca, true⟩ code2 pw2 o2
        (dictGet_dictInsert_self st.clients uid ⟨true, ca, true⟩)
        (dictGet_dictRemove_self st.pending_phones uid)
      rw [h2]
      exact ⟨rfl, dictGet_dictInsert_self st.clients uid ⟨true, ca, true⟩, rfl,
        dictGet_dictRemove_self st.pending_phones uid,
        dictGet_dictRemove_self st.pending_code_hash uid, rfl, rfl⟩
  | false =>
      have hr : confirm_login_code st uid (some code) none SignInResult.ok
          = ({ ok := true, need_password := false, error := none },
             { st with
                 clients := dictInsert
                   (dictInsert st.clients uid ⟨true, ca, ch⟩) uid ⟨true, ca, true⟩,
                 db_updates := st.db_updates
                   ++ [(uid, true, some (sessionFilePath st uid))],
                 pending_phones := dictRemove st.pending_phones uid,
                 pending_code_hash := dictRemove st.pending_code_hash uid },
             [NetCall.connect, NetCall.signInCode phone code hash]) := by
        unfold confirm_login_code
        rw [hc, hp, hh]
        simp only []
        rw [if_neg hpne, if_neg (by simp [pyFalsy, hhne]), if_pos (by simp)]
        rfl
      rw [hr]
      have h2 := confirm_no_pending_phone
        { st with
            clients := dictInsert
              (dictInsert st.clients uid ⟨true, ca, ch⟩) uid ⟨true, ca, true⟩,
            db_updates := st.db_updates
              ++ [(uid, true, some (sessionFilePath st uid))],
            pending_phones := dictRemove st.pending_phones uid,
            pending_code_hash := dictRemove st.pending_code_hash uid }
        uid ⟨true, ca, true⟩ code2 pw2 o2
        (dictGet_dictInsert_self
          (dictInsert st.clients uid ⟨true, ca, ch⟩) uid ⟨true, ca, true⟩)
        (dictGet_dictRemove_self st.pending_phones uid)
      rw [h2]
      exact ⟨rfl,
        dictGet_dictInsert_self
          (dictInsert st.clients uid ⟨true, ca, ch⟩) uid ⟨true, ca, true⟩, rfl,
        dictGet_dictRemove_self st.pending_phones uid,
        dictGet_dictRemove_self st.pending_code_hash uid, rfl, rfl⟩

/-- C1 witness: the theorem applied to the mid-login fixture for user 7. -/
theorem C1_witness :
    dictGet stPending7.clients 7 = some freshClient ∧
    dictGet stPending7.pending_phones 7 = some "+989121234567" ∧
    ("+989121234567" ≠ "") ∧
    dictGet stPending7.pending_code_hash 7 = some "HASH1" ∧
    ("HASH1" ≠ "") ∧
    ((confirm_login_code stPending7 7 (some "12345") none SignInResult.ok).1
        = { ok := true, need_password := false, error := none } ∧
     dictGet (confirm_login_code stPending7 7
         (some "12345") none SignInResult.ok).2.1.clients 7
       = some { connected := true, authorized := freshClient.authorized,
                handlerAttached := true } ∧
     (confirm_login_code stPending7 7 (some "12345") none SignInResult.ok).2.1.db_updates
       = stPending7.db_updates ++ [(7, true, some (sessionFilePath stPending7 7))] ∧
     dictGet (confirm_login_code stPending7 7
         (some "12345") none SignInResult.ok).2.1.pending_phones 7 = none ∧
     dictGet (confirm_login_code stPending7 7
         (some "12345") none SignInResult.ok).2.1.pending_code_hash 7 = none ∧
     (confirm_login_code
         (confirm_login_code stPending7 7 (some "12345") none SignInResult.ok).2.1
         7 (some "12345") none SignInResult.ok).1.ok = false ∧
     isNoPendingLoginError (confirm_login_code
         (confirm_login_code stPending7 7 (some "12345") none SignInResult.ok).2.1
         7 (some "12345") none SignInResult.ok).1.error = true) :=
  ⟨by decide, by decide, by decide, by decide, by decide,
   C1_confirm_success_completes_login_and_second_call_fails stPending7 7 freshClient
     "+989121234567" "HASH1" "12345" (some "12345") none SignInResult.ok
     (by decide) (by decide) (by decide) (by decide) (by decide)⟩

/-- C2: for every user mid-login (client, nonempty pending phone, nonempty
token), when the network reports the code expired, confirm_login_code
returns ok=false with error code_expired and clears the stored token while
keeping the pending phone; a subsequent call with a nonempty code then
fails fast with the no-pending-login error no_code_hash, with no network
call, instead of retrying against the stale token. -/
theorem C2_code_expired_clears_token_and_blocks_retry
    (st : ManagerState) (uid : Nat) (client : ClientState)
    (phone hash code code2 : String) (o2 : SignInResult)
    (hc : dictGet st.clients uid = some client)
    (hp : dictGet st.pending_phones uid = some phone) (hpne : phone ≠ "")
    (hh : dictGet st.pending_code_hash uid = some hash) (hhne : hash ≠ "")
    (hcode2 : code2 ≠ "") :
    (confirm_login_code st uid (some code) none SignInResult.phoneCodeExpired).1
      = confirmFail "code_expired" ∧
    dictGet (confirm_login_code st uid (some code) none
        SignInResult.phoneCodeExpired).2.1.pending_code_hash uid = none ∧
    dictGet (confirm_login_code st uid (some code) none
        SignInResult.phoneCodeExpired).2.1.pending_phones uid = some phone ∧
    confirm_login_code
        (confirm_login_code st uid (some code) none SignInResult.phoneCodeExpired).2.1
        uid (some code2) none o2
      = (confirmFail "no_code_hash",
         (confirm_login_code st uid (some code) none
            SignInResult.phoneCodeExpired).2.1, []) ∧
    isNoPendingLoginError (some "no_code_hash") = true := by
  obtain ⟨cc, ca, ch⟩ := client
  cases cc with
  | true =>
      have hr : confirm_login_code st uid (some code) none SignInResult.phoneCodeExpired
          = (confirmFail "code_expired",
             { st with pending_code_hash := dictRemove st.pending_code_hash uid },
             [NetCall.signInCode phone code hash]) := by
        unfold confirm_login_code
        rw [hc, hp, hh]
        simp only []
        rw [if_neg hpne, if_neg (by simp [pyFalsy, hhne]), if_neg (by simp)]
        rfl
      rw [hr]
      exact ⟨rfl, dictGet_dictRemove_self st.pending_code_hash uid, hp,
        confirm_no_code_hash
          { st with pending_code_hash := dictRemove st.pending_code_hash uid }
          uid ⟨true, ca, ch⟩ phone code2 o2 hc hp hpne
          (dictGet_dictRemove_self st.pending_code_hash uid) hcode2, rfl⟩
  | false =>
      have hr : confirm_login_code st uid (some code) none SignInResult.phoneCodeExpired
          = (confirmFail "code_expired",
             { st with
                 clients := dictInsert st.clients uid ⟨true, ca, ch⟩,
                 pending_code_hash := dictRemove st.pending_code_hash uid },
             [NetCall.connect, NetCall.signInCode phone code hash]) := by
        unfold confirm_login_code
        rw [hc, hp, hh]
        simp only []
        rw [if_neg hpne, if_neg (by simp [pyFalsy, hhne]), if_pos (by simp)]
        rfl
      rw [hr]
      exact ⟨rfl, dictGet_dictRemove_self st.pending_code_hash uid, hp,
        confirm_no_code_hash
          { st with
              clients := dictInsert st.clients uid ⟨true, ca, ch⟩,
              pending_code_hash := dictRemove st.pending_code_hash uid }
          uid ⟨true, ca, ch⟩ phone code2 o2
          (dictGet_dictInsert_self st.clients uid ⟨true, ca, ch⟩) hp hpne
          (dictGet_dictRemove_self st.pending_code_hash uid) hcode2, rfl⟩

/-- C2 witness: the theorem applied to the mid-login fixture for user 7. -/
theorem C2_witness :
    dictGet stPending7.clients 7 = some freshClient ∧
    dictGet stPending7.pending_phones 7 = some "+989121234567" ∧
    ("+989121234567" ≠ "") ∧
    dictGet stPending7.pending_code_hash 7 = some "HASH1" ∧
    ("HASH1" ≠ "") ∧ ("54321" ≠ "") ∧
    ((confirm_login_code stPending7 7 (some "12345") none
        SignInResult.phoneCodeExpired).1 = confirmFail "code_expired" ∧
     dictGet (confirm_login_code stPending7 7 (some "12345") none
        SignInResult.phoneCodeExpired).2.1.pending_code_hash 7 = none ∧
     dictGet (confirm_login_code stPending7 7 (some "12345") none
        SignInResult.phoneCodeExpired).2.1.pending_phones 7 = some "+989121234567" ∧
     confirm_login_code
        (confirm_login_code stPending7 7 (some "12345") none
           SignInResult.phoneCodeExpired).2.1 7 (some "54321") none SignInResult.ok
       = (confirmFail "no_code_hash",
          (confirm_login_code stPending7 7 (some "12345") none
             SignInResult.phoneCodeExpired).2.1, []) ∧
     isNoPendingLoginError (some "no_code_hash") = true) :=
  ⟨by decide, by decide, by decide, by decide, by decide, by decide,
   C2_code_expired_clears_token_and_blocks_retry stPending7 7 freshClient
     "+989121234567" "HASH1" "12345" "54321" SignInResult.ok
     (by decide) (by decide) (by decide) (by decide) (by decide) (by decide)⟩

/-- C10: send_login_code stores the submitted phone as the pending phone
before the code request, so whenever both code-request attempts fail
(invalid phone, rate limit, or any other error) it returns False while the
new phone stays stored and any previously stored verification token is left
exactly as it was — mixed pending state. Both entry paths are covered: an
already-registered client, and a client created during the call. -/
theorem C10_send_failure_keeps_new_phone_and_old_token
    (st : ManagerState) (uid : Nat) (phone : String) (fs : Bool)
    (client : ClientState) (b : Bool) (c? : Except Unit Bool) (e1 e2 : SendErr) :
    (dictGet st.clients uid = some client →
      (send_login_code st uid phone fs
          ⟨c?, Except.error e1, Except.error e2⟩).1 = false ∧
      dictGet (send_login_code st uid phone fs
          ⟨c?, Except.error e1, Except.error e2⟩).2.1.pending_phones uid
        = some phone ∧
      (send_login_code st uid phone fs
          ⟨c?, Except.error e1, Except.error e2⟩).2.1.pending_code_hash
        = st.pending_code_hash ∧
      NetCall.sendCodeRequest phone fs ∈
        (send_login_code st uid phone fs
          ⟨c?, Except.error e1, Except.error e2⟩).2.2.1) ∧
    (dictGet st.clients uid = none →
      (send_login_code st uid phone fs
          ⟨Except.ok b, Except.error e1, Except.error e2⟩).1 = false ∧
      dictGet (send_login_code st uid phone fs
          ⟨Except.ok b, Except.error e1, Except.error e2⟩).2.1.pending_phones uid
        = some phone ∧
      (send_login_code st uid phone fs
          ⟨Except.ok b, Except.error e1, Except.error e2⟩).2.1.pending_code_hash
        = st.pending_code_hash ∧
      NetCall.sendCodeRequest phone fs ∈
        (send_login_code st uid phone fs
          ⟨Except.ok b, Except.error e1, Except.error e2⟩).2.2.1) := by
  constructor
  · intro hc
    unfold send_login_code
    rw [hc]
    unfold sendCore sendAttempt
    cases hcn : client.connected <;> cases e2 <;>
      simp [hcn, dictGet_dictInsert_self]
  · intro hc
    unfold send_login_code
    rw [hc]
    unfold create_client sendCore sendAttempt
    cases e2 <;> simp [connectClient, dictGet_dictInsert_self]

/-- C10 witness: the registered-client branch at the flood-oracle fixture. -/
theorem C10_witness :
    dictGet stWithClient7.clients 7 = some freshClient ∧
    ((send_login_code stWithClient7 7 "+989121234567" true (floodOracle 42)).1
        = false ∧
     dictGet (send_login_code stWithClient7 7 "+989121234567" true
        (floodOracle 42)).2.1.pending_phones 7 = some "+989121234567" ∧
     (send_login_code stWithClient7 7 "+989121234567" true
        (floodOracle 42)).2.1.pending_code_hash = stWithClient7.pending_code_hash ∧
     NetCall.sendCodeRequest "+989121234567" true ∈
       (send_login_code stWithClient7 7 "+989121234567" true
        (floodOracle 42)).2.2.1) :=
  ⟨by decide,
   (C10_send_failure_keeps_new_phone_and_old_token stWithClient7 7 "+989121234567"
      true freshClient false (Except.ok false) (SendErr.floodWait 42)
      (SendErr.floodWait 42)).1 (by decide)⟩

end HezarDastan
